import Mathlib

/-!
Shallow embedding of the coffee-empire quoting / pricing / negotiation / order
engine (src/src/core/engine.py, src/src/core/services.py, src/src/models/api_models.py,
src/src/utils/constants.py) and proofs about the frozen claims.

Modelling conventions:
* Python floats carrying money, quantities and stock are modelled as rationals;
  `round(x, 2)` is modelled by `round2` (round to an integer number of cents).
* The external clock is an integer time source; every operation receives the
  single `now` value it would read from the clock during the call (the system is
  single-process and synchronous, so one call sees one time).
* `uuid.uuid4()` is modelled by a fresh-id counter `next_id` carried in the
  state; freshness of generated ids appears as an explicit hypothesis where a
  proof needs it.
* Python dicts keyed by quote id are association lists: `dictGet`, `dictSet`
  (insert-or-overwrite, preserving position like CPython dicts), `dictDel`.
* Functions that raise (`HTTPException`, or the pydantic validation error hit
  when `OrderItem` is built with `ingredient_id=None`) return `Except`; in the
  source every raise happens before any state mutation in the same call, which
  the model mirrors.
* The module-level configuration constants (`VOLUME_DISCOUNT_TIERS`,
  `DEMAND_WINDOW_HOURS`, `DEMAND_PRICE_HIKES`, `QUOTE_CLEANUP_THRESHOLD`) are
  gathered in a `Config` record passed to the operations, exactly as the
  services receive them at construction time.
-/

namespace CoffeeEmpire

abbrev Time := Int

/-- constants.py: ONE_DAY = 24. -/
def ONE_DAY : Time := 24

/-- constants.py: EXPECTED_DELIVERY = ONE_DAY. -/
def EXPECTED_DELIVERY : Time := ONE_DAY

/-- Model of round(x, 2): round to the nearest 1/100, written through the
floor so concrete values evaluate (this is Mathlib round of x * 100 by
round_eq; the source does not pin a tie-breaking rule and no claim depends
on ties). -/
def round2 (x : ℚ) : ℚ := ((⌊x * 100 + 1/2⌋ : ℤ) : ℚ) / 100

/-- Model of str(uuid.uuid4()): a fresh id derived from the state counter. -/
def genId (n : ℕ) : String := "id-" ++ toString n

/-- Python truthiness of an Optional[str]: None and the empty string are falsy. -/
def truthy : Option String → Bool
  | none => false
  | some s => decide (s ≠ "")

/-- d.get(k) on an association-list dict. -/
def dictGet {α : Type} : List (String × α) → String → Option α
  | [], _ => none
  | (k', v) :: rest, k => if k' = k then some v else dictGet rest k

/-- d[k] = v on an association-list dict: overwrite in place or append. -/
def dictSet {α : Type} : List (String × α) → String → α → List (String × α)
  | [], k, v => [(k, v)]
  | (k', v') :: rest, k, v =>
    if k' = k then (k, v) :: rest else (k', v') :: dictSet rest k v

/-- del d[k] on an association-list dict (removes the key wherever it occurs). -/
def dictDel {α : Type} : List (String × α) → String → List (String × α)
  | [], _ => []
  | (k', v) :: rest, k => if k' = k then dictDel rest k else (k', v) :: dictDel rest k

/-- api_models.py IngredientDefinition (stock is the mutable field). -/
structure IngredientDefinition where
  ingredient_id : String
  name : String
  description : String
  unit_of_measure : String
  currency : String
  base_price : ℚ
  use_by_date : Time
  stock : ℚ
deriving DecidableEq

/-- api_models.py QuoteResponse. -/
structure QuoteResponse where
  quote_id : String
  ingredient_id : String
  name : String
  description : String
  unit_of_measure : String
  price_per_unit : ℚ
  total_price : ℚ
  currency : String
  available_stock : ℚ
  delivery_time : Time
  use_by_date : Time
  price_valid_until : Time
deriving DecidableEq

/-- api_models.py OrderItem. -/
structure OrderItem where
  ingredient_id : String
  quantity : ℚ
  price_per_unit_paid : ℚ
  total_price : ℚ
  use_by_date : Time
deriving DecidableEq

/-- api_models.py OrderResponse (items is a one-entry dict in every code path). -/
structure OrderResponse where
  order_id : String
  business_id : Option String
  items : List (String × OrderItem)
  total_cost : ℚ
  order_placed_at : Time
  expected_delivery : Time
  status : String
  failure_reason : Option String
  quote_id : Option String
deriving DecidableEq

/-- api_models.py BuyRequest (quantity > 0 is enforced by the transport layer). -/
structure BuyRequest where
  quote_id : Option String
  ingredient_id : Option String
  quantity : ℚ
  max_acceptable_price_per_unit : Option ℚ
  business_id : Option String
deriving DecidableEq

/-- api_models.py NegotiateRequest (rationale text is irrelevant to control flow). -/
structure NegotiateRequest where
  quote_id : String
  proposed_price_per_unit : ℚ
  rationale : String
deriving DecidableEq

/-- services.py NegotiationDecision: the structured oracle output. -/
structure NegotiationDecision where
  final_price_per_unit : ℚ
  accepted : Bool
  rationale : String
deriving DecidableEq

/-- api_models.py NegotiateResponse. -/
structure NegotiateResponse where
  original_quote : QuoteResponse
  proposed_price_per_unit : ℚ
  final_price_per_unit : ℚ
  accepted : Bool
  llm_rationale : String
  new_quote : Option QuoteResponse
deriving DecidableEq

/-- The dict returned by PricingService.get_price. -/
structure PriceInfo where
  price_per_unit : ℚ
  price_valid_until : Time
deriving DecidableEq

/-- One entry of constants.py DEMAND_PRICE_HIKES. -/
structure DemandParams where
  quote_threshold : ℕ
  price_hike_percent : ℚ
deriving DecidableEq

/-- An entry of EngineFacade._quote_store. -/
structure CachedQuote where
  quote : QuoteResponse
  expires_at : Time
deriving DecidableEq

/-- An entry of EngineFacade._negotiated_quote_store. -/
structure NegotiatedCachedQuote where
  quote : QuoteResponse
  expires_at : Time
  negotiated_at : Time
  original_price : ℚ
  negotiated_price : ℚ
deriving DecidableEq

/-- The module-level configuration constants fed to the services at startup.
In production: discount_tiers = VOLUME_DISCOUNT_TIERS (sorted ascending at
service construction), demand_window_hours = 4, demand_price_hikes =
DEMAND_PRICE_HIKES, quote_cleanup_threshold = QUOTE_CLEANUP_THRESHOLD = 1000. -/
structure Config where
  discount_tiers : String → List (ℚ × ℚ)
  demand_window_hours : Time
  demand_price_hikes : String → Option DemandParams
  quote_cleanup_threshold : ℕ

/-- The mutable state shared by the services and the facade: the _INGREDIENTS
catalog (stock is mutated in place), the demand history of
DemandBasedPricingService, the two quote stores of EngineFacade, and the
fresh-id counter standing in for uuid4. -/
structure EngineState where
  ingredients : String → Option IngredientDefinition
  quote_history : String → List Time
  quote_store : List (String × CachedQuote)
  negotiated_quote_store : List (String × NegotiatedCachedQuote)
  next_id : ℕ

/-- HTTPException raised by EngineFacade.get_quote. -/
inductive QuoteHTTPError
  | notFound
  | pricingFailed
  | insufficientStock
deriving DecidableEq

/-- HTTPException raised by EngineFacade.negotiate. -/
inductive NegotiateHTTPError
  | quoteNotFound
  | quoteExpired
  | proposedNotLower
deriving DecidableEq

/-- The pydantic ValidationError raised when OrderItem is constructed with
ingredient_id=None (OrderItem.ingredient_id is a required str field). -/
inductive BuyRaise
  | pydanticValidationError
deriving DecidableEq

/-- services.py VolumeDiscountPricingService.get_price, the tier-selection loop:
walk the (sorted) tier list, remembering the discount of each tier whose
min_qty the quantity reaches, and stop at the first tier it does not reach. -/
def VolumeDiscountPricingService.applied_discount : List (ℚ × ℚ) → ℚ → ℚ → ℚ
  | [], _, acc => acc
  | (min_qty, discount_rate) :: rest, quantity, acc =>
    if min_qty ≤ quantity then
      VolumeDiscountPricingService.applied_discount rest quantity discount_rate
    else acc

/-- services.py VolumeDiscountPricingService.get_price. -/
def VolumeDiscountPricingService.get_price (cfg : Config) (st : EngineState)
    (ingredient_id : String) (quantity : ℚ) (now : Time) : Option PriceInfo :=
  match st.ingredients ingredient_id with
  | none => none
  | some ing =>
    let base_price := ing.base_price
    let tiers_for_ing := cfg.discount_tiers ingredient_id
    let applied := VolumeDiscountPricingService.applied_discount tiers_for_ing quantity 0
    let discounted_price := round2 (base_price * (1 - applied))
    some { price_per_unit := discounted_price, price_valid_until := now + ONE_DAY }

/-- services.py DemandBasedPricingService.get_price: volume price first, then
_clean_old_quotes (drop timestamps before now - window), then record_quote
(append now), then the demand multiplier.  A missing DEMAND_PRICE_HIKES entry
gives quote_threshold = float inf, so the hike branch is never taken. -/
def DemandBasedPricingService.get_price (cfg : Config) (st : EngineState)
    (ingredient_id : String) (quantity : ℚ) (now : Time) :
    Option PriceInfo × EngineState :=
  match VolumeDiscountPricingService.get_price cfg st ingredient_id quantity now with
  | none => (none, st)
  | some volume_price =>
    let cutoff_time := now - cfg.demand_window_hours
    let cleaned := (st.quote_history ingredient_id).filter (fun ts => decide (cutoff_time ≤ ts))
    let hist := cleaned ++ [now]
    let st1 := { st with quote_history := Function.update st.quote_history ingredient_id hist }
    let recent_quotes := hist.length
    match cfg.demand_price_hikes ingredient_id with
    | none => (some volume_price, st1)
    | some params =>
      if params.quote_threshold ≤ recent_quotes then
        let hikes := recent_quotes / params.quote_threshold
        let demand_multiplier := (1 + params.price_hike_percent) ^ hikes
        (some { price_per_unit := round2 (volume_price.price_per_unit * demand_multiplier),
                price_valid_until := volume_price.price_valid_until }, st1)
      else (some volume_price, st1)

/-- services.py InventoryService.get_stock. -/
def InventoryService.get_stock (st : EngineState) (ingredient_id : String) : Option ℚ :=
  (st.ingredients ingredient_id).map IngredientDefinition.stock

/-- services.py InventoryService.consume_stock. -/
def InventoryService.consume_stock (st : EngineState) (ingredient_id : String)
    (quantity : ℚ) : Bool × EngineState :=
  match st.ingredients ingredient_id with
  | none => (false, st)
  | some ing =>
    if ing.stock < quantity then (false, st)
    else
      let updated := Function.update st.ingredients ingredient_id
        (some { ing with stock := ing.stock - quantity })
      (true, { st with ingredients := updated })

/-- services.py OrderService.create_order (persistence of CONFIRMED orders goes
to the external repository and is outside the model; uid stands for uuid4). -/
def OrderService.create_order (uid : ℕ) (now : Time) (business_id : Option String)
    (item : OrderItem) (expected_delivery : Time) (status : String)
    (failure_reason : Option String) (quote_id : Option String) : OrderResponse :=
  { order_id := genId uid
    business_id := business_id
    items := [(item.ingredient_id, item)]
    total_cost := if status = "CONFIRMED" then item.total_price else 0
    order_placed_at := now
    expected_delivery := expected_delivery
    status := status
    failure_reason := failure_reason
    quote_id := quote_id }

/-- services.py NegotiationService._fallback_negotiation, fed the three values
_prepare_negotiation_context extracts: the ingredient base price, the current
quoted unit price and the proposed unit price.  Rationale strings are
abbreviated (the source interpolates the numbers into prose). -/
def NegotiationService.fallback_negotiation (base_price current_price proposed_price : ℚ) :
    NegotiationDecision :=
  let price_diff_percent := |proposed_price - current_price| / current_price
  if base_price ≤ proposed_price ∧ price_diff_percent ≤ 1/10 then
    { final_price_per_unit := proposed_price
      accepted := true
      rationale := "within acceptable range" }
  else
    { final_price_per_unit := current_price
      accepted := false
      rationale := "outside acceptable range" }

/-- services.py NegotiationService._create_new_quote. -/
def NegotiationService.create_new_quote (original_quote : QuoteResponse)
    (new_price_per_unit : ℚ) : QuoteResponse :=
  let new_total_price :=
    round2 (new_price_per_unit * (original_quote.total_price / original_quote.price_per_unit))
  { quote_id := original_quote.quote_id
    ingredient_id := original_quote.ingredient_id
    name := original_quote.name
    description := original_quote.description
    unit_of_measure := original_quote.unit_of_measure
    price_per_unit := new_price_per_unit
    total_price := new_total_price
    currency := original_quote.currency
    available_stock := original_quote.available_stock
    delivery_time := original_quote.delivery_time
    use_by_date := original_quote.use_by_date
    price_valid_until := original_quote.price_valid_until }

/-- services.py NegotiationService.negotiate_price.  The oracle argument is the
outcome of _call_llm_service: some decision when the OpenAI call succeeds, none
when it fails, in which case the deterministic fallback supplies the decision
(base price 0 when the ingredient is unknown, as in _prepare_negotiation_context). -/
def NegotiationService.negotiate_price (ingredients : String → Option IngredientDefinition)
    (request : NegotiateRequest) (original_quote : QuoteResponse)
    (oracle : Option NegotiationDecision) : NegotiateResponse :=
  let base_price :=
    match ingredients original_quote.ingredient_id with
    | some i => i.base_price
    | none => 0
  let llm :=
    match oracle with
    | some d => d
    | none => NegotiationService.fallback_negotiation base_price
        original_quote.price_per_unit request.proposed_price_per_unit
  let final_price := llm.final_price_per_unit
  if final_price < original_quote.price_per_unit then
    { original_quote := original_quote
      proposed_price_per_unit := request.proposed_price_per_unit
      final_price_per_unit := final_price
      accepted := true
      llm_rationale := llm.rationale
      new_quote := some (NegotiationService.create_new_quote original_quote final_price) }
  else
    { original_quote := original_quote
      proposed_price_per_unit := request.proposed_price_per_unit
      final_price_per_unit := final_price
      accepted := llm.accepted
      llm_rationale := llm.rationale
      new_quote := none }

/-- engine.py EngineFacade._cleanup_quote_store: drop every entry of either
store whose expires_at ≤ now. -/
def EngineFacade.cleanup_quote_store (st : EngineState) (now : Time) : EngineState :=
  { st with
    quote_store := st.quote_store.filter (fun p => decide (¬ p.2.expires_at ≤ now))
    negotiated_quote_store :=
      st.negotiated_quote_store.filter (fun p => decide (¬ p.2.expires_at ≤ now)) }

/-- engine.py EngineFacade._get_unnegotiated_quotes: looks only in _quote_store. -/
def EngineFacade.get_unnegotiated_quotes (st : EngineState) (quote_id : String) :
    Option CachedQuote :=
  dictGet st.quote_store quote_id

/-- engine.py EngineFacade._get_negotiated_quotes. -/
def EngineFacade.get_negotiated_quotes (st : EngineState) (quote_id : String) :
    Option NegotiatedCachedQuote :=
  dictGet st.negotiated_quote_store quote_id

/-- engine.py EngineFacade.get_quote.  The first component is the response or
the HTTPException raised; the second is the state after the call (mutations
made before a raise persist, exactly as in the source). -/
def EngineFacade.get_quote (cfg : Config) (st : EngineState) (ingredient_id : String)
    (quantity : ℚ) (now : Time) : Except QuoteHTTPError QuoteResponse × EngineState :=
  match st.ingredients ingredient_id with
  | none => (.error .notFound, st)
  | some ing_def =>
    match DemandBasedPricingService.get_price cfg st ingredient_id quantity now with
    | (none, st1) => (.error .pricingFailed, st1)
    | (some price_info, st1) =>
      match InventoryService.get_stock st1 ingredient_id with
      | none => (.error .notFound, st1)
      | some stock_available =>
        if stock_available < quantity then (.error .insufficientStock, st1)
        else
          let quote_id := genId st1.next_id
          let price_valid_until := price_info.price_valid_until
          let total_price := round2 (price_info.price_per_unit * quantity)
          let quote : QuoteResponse :=
            { quote_id := quote_id
              ingredient_id := ingredient_id
              name := ing_def.name
              description := ing_def.description
              unit_of_measure := ing_def.unit_of_measure
              price_per_unit := price_info.price_per_unit
              total_price := total_price
              currency := ing_def.currency
              available_stock := stock_available
              delivery_time := ONE_DAY
              use_by_date := ing_def.use_by_date
              price_valid_until := price_valid_until }
          let st2 := { st1 with
            quote_store := dictSet st1.quote_store quote_id
              { quote := quote, expires_at := price_valid_until }
            next_id := st1.next_id + 1 }
          let st3 :=
            if cfg.quote_cleanup_threshold < st2.quote_store.length then
              EngineFacade.cleanup_quote_store st2 now
            else st2
          (.ok quote, st3)

/-- engine.py EngineFacade._failed_order.  Raises the pydantic ValidationError
when ingredient_id is None (OrderItem.ingredient_id is a required str). -/
def EngineFacade.failed_order (st : EngineState) (now : Time) (business_id : Option String)
    (ingredient_id : Option String) (quantity : ℚ) (use_by_date : Time)
    (expected_delivery : Time) (status : String) (failure_reason : String)
    (quote_id : Option String) : Except BuyRaise (OrderResponse × EngineState) :=
  match ingredient_id with
  | none => .error .pydanticValidationError
  | some iid =>
    .ok (OrderService.create_order st.next_id now business_id
          { ingredient_id := iid
            quantity := quantity
            price_per_unit_paid := 0
            total_price := 0
            use_by_date := use_by_date }
          expected_delivery status (some failure_reason) quote_id,
        { st with next_id := st.next_id + 1 })

/-- engine.py EngineFacade.buy from line 264 on (the code shared by every price
resolution branch): price ceiling check, stock check, atomic consume, order
item construction, eviction of the quote id from both stores, CONFIRMED order. -/
def EngineFacade.buy_rest (st : EngineState) (req : BuyRequest) (now : Time)
    (iid : String) (ing_def : IngredientDefinition) (price_per_unit : ℚ) :
    Except BuyRaise (OrderResponse × EngineState) :=
  let ceiling_exceeded :=
    match req.max_acceptable_price_per_unit with
    | some m => decide (m < price_per_unit)
    | none => false
  if ceiling_exceeded then
    EngineFacade.failed_order st now req.business_id (some iid) req.quantity
      ing_def.use_by_date now "FAILED_PRICE_TOO_HIGH"
      "Price exceeds max acceptable" req.quote_id
  else
    let available := InventoryService.get_stock st iid
    let no_stock :=
      match available with
      | none => true
      | some a => decide (a < req.quantity)
    if no_stock then
      EngineFacade.failed_order st now req.business_id (some iid) req.quantity
        ing_def.use_by_date now "FAILED_NO_STOCK" "Insufficient stock" req.quote_id
    else
      match InventoryService.consume_stock st iid req.quantity with
      | (false, st1) =>
        EngineFacade.failed_order st1 now req.business_id (some iid) req.quantity
          ing_def.use_by_date now "FAILED_SYSTEM_ERROR"
          "Race condition: stock consumption failed." req.quote_id
      | (true, st1) =>
        let total_price := round2 (price_per_unit * req.quantity)
        let item : OrderItem :=
          { ingredient_id := iid
            quantity := req.quantity
            price_per_unit_paid := price_per_unit
            total_price := total_price
            use_by_date := ing_def.use_by_date + now }
        let expected_delivery := now + EXPECTED_DELIVERY
        let st2 :=
          if truthy req.quote_id then
            { st1 with
              quote_store := dictDel st1.quote_store (req.quote_id.getD "")
              negotiated_quote_store := dictDel st1.negotiated_quote_store (req.quote_id.getD "") }
          else st1
        .ok (OrderService.create_order st2.next_id now req.business_id item
              expected_delivery "CONFIRMED" none req.quote_id,
            { st2 with next_id := st2.next_id + 1 })

/-- engine.py EngineFacade.buy, lines 173-175: look the quote id up in the
unnegotiated store first, then in the negotiated store, keeping the quote and
expiry fields the facade reads. -/
def EngineFacade.lookup_cached (st : EngineState) (qid : String) :
    Option (QuoteResponse × Time) :=
  match EngineFacade.get_unnegotiated_quotes st qid with
  | some c => some (c.quote, c.expires_at)
  | none =>
    (EngineFacade.get_negotiated_quotes st qid).map (fun c => (c.quote, c.expires_at))

/-- engine.py EngineFacade.buy.  `.error` models the pydantic ValidationError
raised while building a failure OrderItem with ingredient_id=None; no state is
mutated before either possible raise.  When a supplied quote id misses both
caches the code silently reprices (its not-found failure branch is commented
out in the source). -/
def EngineFacade.buy (cfg : Config) (st : EngineState) (req : BuyRequest) (now : Time) :
    Except BuyRaise (OrderResponse × EngineState) :=
  if req.quote_id = none ∧ req.ingredient_id = none then
    EngineFacade.failed_order st now req.business_id none req.quantity now now
      "FAILED_INVALID_REQUEST" "Neither quote_id nor ingredient_id provided." none
  else
    match req.ingredient_id, req.ingredient_id.bind st.ingredients with
    | miid, none =>
      EngineFacade.failed_order st now req.business_id miid req.quantity now now
        "FAILED_INVALID_ITEM" "Ingredient not found." req.quote_id
    | none, some _ =>
      -- unreachable: ingredient lookup needs a key
      .error .pydanticValidationError
    | some iid, some ing_def =>
      if truthy req.quote_id then
        match EngineFacade.lookup_cached st (req.quote_id.getD "") with
        | none =>
          match DemandBasedPricingService.get_price cfg st iid req.quantity now with
          | (none, st1) =>
            EngineFacade.failed_order st1 now req.business_id (some iid) req.quantity
              ing_def.use_by_date now "FAILED_SYSTEM_ERROR" "Could not compute price."
              req.quote_id
          | (some pinfo, st1) =>
            EngineFacade.buy_rest st1 req now iid ing_def pinfo.price_per_unit
        | some (cq, cexp) =>
          if cq.ingredient_id ≠ iid then
            EngineFacade.failed_order st now req.business_id (some iid) req.quantity
              ing_def.use_by_date now "FAILED_INVALID_QUOTE:INGREDIENT_MISMATCH"
              "Ingredient in quote does not match requested ingredient." req.quote_id
          else if cexp ≤ now then
            EngineFacade.failed_order st now req.business_id (some iid) req.quantity
              ing_def.use_by_date now "FAILED_INVALID_QUOTE:QUOTE_EXPIRED"
              "Quote has expired." req.quote_id
          else
            EngineFacade.buy_rest st req now iid ing_def cq.price_per_unit
      else
        match DemandBasedPricingService.get_price cfg st iid req.quantity now with
        | (none, st1) =>
          EngineFacade.failed_order st1 now req.business_id (some iid) req.quantity
            ing_def.use_by_date now "FAILED_SYSTEM_ERROR" "Could not compute price."
            req.quote_id
        | (some pinfo, st1) =>
          EngineFacade.buy_rest st1 req now iid ing_def pinfo.price_per_unit

/-- engine.py EngineFacade.negotiate.  The first component is the response or
the HTTPException raised (every raise happens before any mutation, so errors
are paired with the unchanged state, as in the source). -/
def EngineFacade.negotiate (st : EngineState) (request : NegotiateRequest)
    (oracle : Option NegotiationDecision) (now : Time) :
    Except NegotiateHTTPError NegotiateResponse × EngineState :=
  match EngineFacade.get_unnegotiated_quotes st request.quote_id with
  | none => (.error .quoteNotFound, st)
  | some cached =>
    let original_quote := cached.quote
    if cached.expires_at ≤ now then (.error .quoteExpired, st)
    else if original_quote.price_per_unit ≤ request.proposed_price_per_unit then
      (.error .proposedNotLower, st)
    else
      let result := NegotiationService.negotiate_price st.ingredients request
        original_quote oracle
      match result.new_quote, result.accepted with
      | some nq, true =>
        let st1 := { st with
          quote_store := dictDel st.quote_store request.quote_id
          negotiated_quote_store := dictSet st.negotiated_quote_store request.quote_id
            { quote := nq
              expires_at := original_quote.price_valid_until
              negotiated_at := now
              original_price := original_quote.price_per_unit
              negotiated_price := result.final_price_per_unit } }
        (.ok result, st1)
      | _, _ => (.ok result, st)

/-! Concrete fixtures mirroring entries of constants.py, used to instantiate
theorems on concrete inputs. -/

/-- The dark_roast_beans catalog entry (stock shrunk to a finite test value). -/
def darkRoast : IngredientDefinition :=
  { ingredient_id := "dark_roast_beans"
    name := "Standard Robusta Dark Roast Coffee Beans"
    description := "Basic dark roast robusta beans"
    unit_of_measure := "kg"
    currency := "USD"
    base_price := 8
    use_by_date := 168
    stock := 100 }

/-- The espresso_beans catalog entry (stock shrunk to a finite test value). -/
def espresso : IngredientDefinition :=
  { ingredient_id := "espresso_beans"
    name := "Premium Espresso Coffee Beans"
    description := "High-quality arabica beans"
    unit_of_measure := "kg"
    currency := "USD"
    base_price := 25/2
    use_by_date := 168
    stock := 100 }

/-- A two-ingredient catalog. -/
def testCatalog : String → Option IngredientDefinition := fun s =>
  if s = "dark_roast_beans" then some darkRoast
  else if s = "espresso_beans" then some espresso
  else none

/-- The VOLUME_DISCOUNT_TIERS rows for the two test ingredients. -/
def testTiers : String → List (ℚ × ℚ) := fun s =>
  if s = "dark_roast_beans" then [(10, 1/10), (25, 1/5), (50, 3/10)]
  else if s = "espresso_beans" then [(5, 2/25), (15, 3/20), (30, 1/4)]
  else []

/-- DEMAND_PRICE_HIKES rows: dark_roast_beans has threshold 5, hike 5 percent. -/
def testHikes : String → Option DemandParams := fun s =>
  if s = "dark_roast_beans" then some { quote_threshold := 5, price_hike_percent := 1/20 }
  else none

/-- The production configuration restricted to the test catalog. -/
def testConfig : Config :=
  { discount_tiers := testTiers
    demand_window_hours := 4
    demand_price_hikes := testHikes
    quote_cleanup_threshold := 1000 }

/-- A state with the test catalog, no history and empty stores. -/
def emptyState : EngineState :=
  { ingredients := testCatalog
    quote_history := fun _ => []
    quote_store := []
    negotiated_quote_store := []
    next_id := 0 }

/-- Spec scenario 1: Quote of 5 kg dark roast at base 8.00, below the first
tier, prices at 8.00 with total 40.00. -/
example :
    ((EngineFacade.get_quote testConfig emptyState "dark_roast_beans" 5 0).1.toOption.map
      (fun q => (q.price_per_unit, q.total_price))) = some (8, 40) := by
  simp [EngineFacade.get_quote, DemandBasedPricingService.get_price,
    VolumeDiscountPricingService.get_price, VolumeDiscountPricingService.applied_discount,
    InventoryService.get_stock, testConfig, testTiers, testHikes, testCatalog, darkRoast,
    espresso, emptyState, round2, Function.update, EngineFacade.cleanup_quote_store,
    dictSet, genId, ONE_DAY, Except.toOption]
  norm_num

/-- Spec scenario 2: Quote of 10 kg dark roast hits the (10, 10 percent) tier,
pricing at 7.20 with total 72.00. -/
example :
    ((EngineFacade.get_quote testConfig emptyState "dark_roast_beans" 10 0).1.toOption.map
      (fun q => (q.price_per_unit, q.total_price))) = some (36/5, 72) := by
  simp [EngineFacade.get_quote, DemandBasedPricingService.get_price,
    VolumeDiscountPricingService.get_price, VolumeDiscountPricingService.applied_discount,
    InventoryService.get_stock, testConfig, testTiers, testHikes, testCatalog, darkRoast,
    espresso, emptyState, round2, Function.update, EngineFacade.cleanup_quote_store,
    dictSet, genId, ONE_DAY, Except.toOption]
  norm_num

/-! Helper lemmas about the dict operations and rounding. -/

theorem dictGet_dictDel_self {α : Type} (l : List (String × α)) (k : String) :
    dictGet (dictDel l k) k = none := by
  induction l with
  | nil => rfl
  | cons p rest ih =>
    rcases p with ⟨k', v⟩
    by_cases hk : k' = k
    · simp [dictDel, hk, ih]
    · simp [dictDel, dictGet, hk, ih]

theorem dictGet_dictDel_ne {α : Type} (l : List (String × α)) (k j : String) (h : j ≠ k) :
    dictGet (dictDel l k) j = dictGet l j := by
  induction l with
  | nil => rfl
  | cons p rest ih =>
    rcases p with ⟨k', v⟩
    by_cases hk : k' = k
    · have hkj : k' ≠ j := by rw [hk]; exact fun hj => h hj.symm
      simp [dictDel, dictGet, hk, hkj, ih, h, Ne.symm h]
    · by_cases hj : k' = j
      · simp [dictDel, dictGet, hk, hj, h, Ne.symm h]
      · simp [dictDel, dictGet, hk, hj, ih, h, Ne.symm h]

theorem dictSet_fresh {α : Type} (l : List (String × α)) (k : String) (v : α)
    (h : dictGet l k = none) : dictSet l k v = l ++ [(k, v)] := by
  induction l with
  | nil => rfl
  | cons p rest ih =>
    rcases p with ⟨k', v'⟩
    by_cases hk : k' = k
    · simp [dictGet, hk] at h
    · simp only [dictGet, if_neg hk] at h
      simp [dictSet, hk, ih h]

theorem round2_mono {x y : ℚ} (h : x ≤ y) : round2 x ≤ round2 y := by
  unfold round2
  have hf : ⌊x * 100 + 1/2⌋ ≤ ⌊y * 100 + 1/2⌋ := Int.floor_le_floor (by linarith)
  have : ((⌊x * 100 + 1/2⌋ : ℤ) : ℚ) ≤ ((⌊y * 100 + 1/2⌋ : ℤ) : ℚ) := by exact_mod_cast hf
  linarith

theorem round2_zero : round2 0 = 0 := by norm_num [round2]

/-! State-preservation facts for the pricing chain. -/

theorem demand_get_price_state (cfg : Config) (st : EngineState) (i : String) (q : ℚ)
    (now : Time) :
    (DemandBasedPricingService.get_price cfg st i q now).2
      = { st with quote_history :=
            (DemandBasedPricingService.get_price cfg st i q now).2.quote_history } := by
  unfold DemandBasedPricingService.get_price
  split
  · rfl
  · split
    · rfl
    · dsimp only
      split
      · rfl
      · rfl

/-! Claim C9: consume_stock semantics. -/

/-- Iterated consume_stock, for the sequencing part of the stock claim. -/
def consumeSeq (st : EngineState) : List (String × ℚ) → EngineState
  | [] => st
  | (i, q) :: rest => consumeSeq (InventoryService.consume_stock st i q).2 rest

theorem consume_stock_preserves_nonneg (st : EngineState) (i : String) (q : ℚ)
    (h : ∀ j ing, st.ingredients j = some ing → 0 ≤ ing.stock) :
    ∀ j ing, (InventoryService.consume_stock st i q).2.ingredients j = some ing →
      0 ≤ ing.stock := by
  intro j ing hj
  rcases hst : st.ingredients i with _ | ing0
  · simp only [InventoryService.consume_stock, hst] at hj
    exact h j ing hj
  · simp only [InventoryService.consume_stock, hst] at hj
    by_cases hlt : ing0.stock < q
    · rw [if_pos hlt] at hj
      exact h j ing hj
    · rw [if_neg hlt] at hj
      dsimp only at hj
      by_cases hji : j = i
      · subst hji
        rw [Function.update_same] at hj
        injection hj with hj
        subst hj
        have hq : q ≤ ing0.stock := le_of_not_lt hlt
        simp only []
        linarith
      · rw [Function.update_noteq hji] at hj
        exact h j ing hj

/-- Claim C9: consume_stock(id, q) fails and leaves every stock unchanged when
the ingredient is unknown or q exceeds its stock; otherwise it succeeds,
decreasing exactly that stock by q and leaving all others unchanged; and
starting from nonnegative stocks, every sequence of consume calls with
positive quantities keeps every stock nonnegative. -/
theorem consume_stock_spec (st : EngineState) (iid : String) (q : ℚ) :
    ((st.ingredients iid = none ∨ ∃ ing, st.ingredients iid = some ing ∧ ing.stock < q) →
      InventoryService.consume_stock st iid q = (false, st)) ∧
    (∀ ing, st.ingredients iid = some ing → ¬ ing.stock < q →
      (InventoryService.consume_stock st iid q).1 = true ∧
      ((InventoryService.consume_stock st iid q).2.ingredients iid).map
        IngredientDefinition.stock = some (ing.stock - q) ∧
      (∀ j, j ≠ iid → (InventoryService.consume_stock st iid q).2.ingredients j
        = st.ingredients j)) ∧
    (∀ ops : List (String × ℚ), (∀ p ∈ ops, 0 < p.2) →
      (∀ j ing, st.ingredients j = some ing → 0 ≤ ing.stock) →
      ∀ j ing, (consumeSeq st ops).ingredients j = some ing → 0 ≤ ing.stock) := by
  refine ⟨?_, ?_, ?_⟩
  · rintro (hnone | ⟨ing, hing, hlt⟩)
    · simp only [InventoryService.consume_stock, hnone]
    · simp only [InventoryService.consume_stock, hing, if_pos hlt]
  · intro ing hing hge
    simp only [InventoryService.consume_stock, hing, if_neg hge]
    refine ⟨trivial, ?_, ?_⟩
    · simp [Function.update_same]
    · intro j hj
      simp [Function.update_noteq hj]
  · intro ops
    induction ops generalizing st with
    | nil => intro _ h j ing hj; exact h j ing hj
    | cons p rest ih =>
      intro hpos h j ing hj
      rcases p with ⟨i0, q0⟩
      have h1 := consume_stock_preserves_nonneg st i0 q0 h
      exact ih ((InventoryService.consume_stock st i0 q0).2)
        (fun p hp => hpos p (List.mem_cons_of_mem _ hp)) h1 j ing hj

/-- Witness for C9: consuming 30 of the 100 kg dark roast stock succeeds and
leaves 70, and the failure case on over-consumption leaves the state frozen. -/
theorem consume_stock_spec_witness :
    (InventoryService.consume_stock emptyState "dark_roast_beans" 30).1 = true ∧
    ((InventoryService.consume_stock emptyState "dark_roast_beans" 30).2.ingredients
      "dark_roast_beans").map IngredientDefinition.stock = some 70 ∧
    InventoryService.consume_stock emptyState "dark_roast_beans" 1000
      = (false, emptyState) := by
  have h2 := (consume_stock_spec emptyState "dark_roast_beans" 30).2.1 darkRoast
    (by simp [emptyState, testCatalog]) (by norm_num [darkRoast])
  have h1 := (consume_stock_spec emptyState "dark_roast_beans" 1000).1
    (Or.inr ⟨darkRoast, by simp [emptyState, testCatalog], by norm_num [darkRoast]⟩)
  refine ⟨h2.1, ?_, h1⟩
  rw [h2.2.1]
  norm_num [darkRoast]

/-! Claim C7: the deterministic fallback negotiation rule. -/

/-- Claim C7: when the oracle call fails (oracle = none), the negotiation
accepts the proposed unit price exactly when it is at least the base price of
the ingredient and within 10 percent of the current quoted price; on accept
the final price is the proposed price, on reject the final price is the
current quoted price.  (The positivity hypothesis keeps the model inside the
region where the source's division by the current price is defined.) -/
theorem fallback_negotiation_spec (ingredients : String → Option IngredientDefinition)
    (request : NegotiateRequest) (original_quote : QuoteResponse)
    (hpos : 0 < original_quote.price_per_unit) :
    ((NegotiationService.negotiate_price ingredients request original_quote none).accepted = true
      ↔ ((match ingredients original_quote.ingredient_id with
          | some i => i.base_price
          | none => 0) ≤ request.proposed_price_per_unit ∧
         |request.proposed_price_per_unit - original_quote.price_per_unit|
           / original_quote.price_per_unit ≤ 1/10)) ∧
    ((NegotiationService.negotiate_price ingredients request original_quote none).accepted = true →
      (NegotiationService.negotiate_price ingredients request original_quote none).final_price_per_unit
        = request.proposed_price_per_unit) ∧
    ((NegotiationService.negotiate_price ingredients request original_quote none).accepted = false →
      (NegotiationService.negotiate_price ingredients request original_quote none).final_price_per_unit
        = original_quote.price_per_unit) := by
  unfold NegotiationService.negotiate_price NegotiationService.fallback_negotiation
  dsimp only
  by_cases hcond : ((match ingredients original_quote.ingredient_id with
      | some i => i.base_price
      | none => 0) ≤ request.proposed_price_per_unit ∧
      |request.proposed_price_per_unit - original_quote.price_per_unit|
        / original_quote.price_per_unit ≤ 1/10)
  · rw [if_pos hcond]
    dsimp only
    by_cases h2 : request.proposed_price_per_unit < original_quote.price_per_unit
    · rw [if_pos h2]
      simp [hcond.1]
      linarith [hcond.2]
    · rw [if_neg h2]
      simp [hcond.1]
      linarith [hcond.2]
  · rw [if_neg hcond]
    dsimp only
    have h2 : ¬ original_quote.price_per_unit < original_quote.price_per_unit := lt_irrefl _
    rw [if_neg h2]
    exact ⟨⟨fun hb => absurd hb (by simp), fun hc => absurd hc hcond⟩,
      fun hb => absurd hb (by simp), fun _ => rfl⟩

/-- Fixture: a live quote at unit price 10 for dark roast. -/
def wQuote : QuoteResponse :=
  { quote_id := "id-0"
    ingredient_id := "dark_roast_beans"
    name := "Standard Robusta Dark Roast Coffee Beans"
    description := "Basic dark roast robusta beans"
    unit_of_measure := "kg"
    price_per_unit := 10
    total_price := 50
    currency := "USD"
    available_stock := 100
    delivery_time := 24
    use_by_date := 168
    price_valid_until := 24 }

/-- Fixture: a counter-offer of 9.50 against wQuote. -/
def wReq : NegotiateRequest :=
  { quote_id := "id-0"
    proposed_price_per_unit := 19/2
    rationale := "bulk loyalty" }

/-- Witness for C7: 9.50 against a quoted 10.00 with base price 8.00 is
within 10 percent and above base, so the fallback accepts at 9.50. -/
theorem fallback_negotiation_spec_witness :
    (0:ℚ) < wQuote.price_per_unit ∧
    (NegotiationService.negotiate_price testCatalog wReq wQuote none).accepted = true ∧
    (NegotiationService.negotiate_price testCatalog wReq wQuote none).final_price_per_unit
      = 19/2 := by
  have h := fallback_negotiation_spec testCatalog wReq wQuote (by norm_num [wQuote])
  have hacc := h.1.mpr
    ⟨by simp [testCatalog, wQuote, darkRoast, wReq]; norm_num,
     by simp [wQuote, wReq]; rw [abs_of_nonpos (by norm_num)]; norm_num⟩
  exact ⟨by norm_num [wQuote], hacc, by rw [h.2.1 hacc]; rfl⟩

/-! Claim C10: negotiate looks up only the unnegotiated partition. -/

/-- Claim C10: negotiate searches only the unnegotiated partition when looking
up the quote id: for an id whose live entry sits in the negotiated partition
(and not in the unnegotiated one), negotiate fails with the not-found error
and leaves the state, hence both partitions, unchanged; and once a negotiation
succeeds (accepted with a new quote), the id has moved to the negotiated
partition, so a second negotiate on the same id fails with not-found — each
quote id can be negotiated at most once. -/
theorem negotiate_only_unnegotiated :
    (∀ (st : EngineState) (request : NegotiateRequest) (oracle : Option NegotiationDecision)
      (now : Time) (e : NegotiatedCachedQuote),
      dictGet st.negotiated_quote_store request.quote_id = some e →
      dictGet st.quote_store request.quote_id = none →
      EngineFacade.negotiate st request oracle now = (.error .quoteNotFound, st)) ∧
    (∀ (st : EngineState) (request : NegotiateRequest) (oracle : Option NegotiationDecision)
      (now : Time) (resp : NegotiateResponse) (st' : EngineState) (nq : QuoteResponse)
      (request2 : NegotiateRequest) (oracle2 : Option NegotiationDecision) (now2 : Time),
      EngineFacade.negotiate st request oracle now = (.ok resp, st') →
      resp.accepted = true → resp.new_quote = some nq →
      request2.quote_id = request.quote_id →
      EngineFacade.negotiate st' request2 oracle2 now2 = (.error .quoteNotFound, st')) := by
  constructor
  · intro st request oracle now e _ hun
    simp only [EngineFacade.negotiate, EngineFacade.get_unnegotiated_quotes, hun]
  · intro st request oracle now resp st' nq request2 oracle2 now2 h hacc hnq heq2
    rcases hq : dictGet st.quote_store request.quote_id with _ | cached
    · simp only [EngineFacade.negotiate, EngineFacade.get_unnegotiated_quotes, hq] at h
      exact absurd h (by simp)
    · simp only [EngineFacade.negotiate, EngineFacade.get_unnegotiated_quotes, hq] at h
      by_cases hexp : cached.expires_at ≤ now
      · rw [if_pos hexp] at h
        exact absurd h (by simp)
      · rw [if_neg hexp] at h
        by_cases hhigher : cached.quote.price_per_unit ≤ request.proposed_price_per_unit
        · rw [if_pos hhigher] at h
          exact absurd h (by simp)
        · rw [if_neg hhigher] at h
          split at h
          · rename_i nq0 hsome
            injection h with h1 h2
            have hget : dictGet st'.quote_store request2.quote_id = none := by
              rw [← h2, heq2]
              exact dictGet_dictDel_self _ _
            simp only [EngineFacade.negotiate, EngineFacade.get_unnegotiated_quotes, hget]
          · rename_i hno
            injection h with h1 h2
            injection h1 with h1
            rw [← h1] at hacc hnq
            exact absurd (hno nq hnq hacc) not_false

/-- Fixture: the wQuote entry cached as a live negotiated-partition entry. -/
def wNegEntry : NegotiatedCachedQuote :=
  { quote := wQuote
    expires_at := 24
    negotiated_at := 1
    original_price := 11
    negotiated_price := 10 }

/-- Fixture: a state whose only live entry for id-0 is negotiated. -/
def wNegState : EngineState :=
  { ingredients := testCatalog
    quote_history := fun _ => []
    quote_store := []
    negotiated_quote_store := [("id-0", wNegEntry)]
    next_id := 1 }

/-- Witness for C10: negotiating id-0, which is live only in the negotiated
partition, fails with the not-found error and does not change the state. -/
theorem negotiate_only_unnegotiated_witness :
    EngineFacade.negotiate wNegState wReq none 2 = (.error .quoteNotFound, wNegState) :=
  negotiate_only_unnegotiated.1 wNegState wReq none 2 wNegEntry
    (by simp [wNegState, wReq, dictGet]) (by simp [wNegState, wReq, dictGet])

/-! Claim C6: negotiate either replaces the cached quote or leaves it alone. -/

theorem negotiate_price_cases (ingredients : String → Option IngredientDefinition)
    (request : NegotiateRequest) (original_quote : QuoteResponse)
    (oracle : Option NegotiationDecision) :
    (NegotiationService.negotiate_price ingredients request original_quote oracle).original_quote
      = original_quote ∧
    ((NegotiationService.negotiate_price ingredients request original_quote oracle).final_price_per_unit
        < original_quote.price_per_unit →
      (NegotiationService.negotiate_price ingredients request original_quote oracle).accepted = true ∧
      (NegotiationService.negotiate_price ingredients request original_quote oracle).new_quote
        = some (NegotiationService.create_new_quote original_quote
            (NegotiationService.negotiate_price ingredients request original_quote
              oracle).final_price_per_unit)) ∧
    (¬ (NegotiationService.negotiate_price ingredients request original_quote oracle).final_price_per_unit
        < original_quote.price_per_unit →
      (NegotiationService.negotiate_price ingredients request original_quote oracle).new_quote
        = none) := by
  unfold NegotiationService.negotiate_price
  dsimp only
  split
  · exact ⟨rfl, fun _ => ⟨rfl, rfl⟩, fun hn => absurd (by assumption) hn⟩
  · exact ⟨rfl, fun hlt => absurd hlt (by assumption), fun _ => rfl⟩

/-- Claim C6: for every negotiate call that passes the precondition checks
(live unnegotiated entry, unexpired, proposal strictly below the quoted
price): if the resolved final unit price is strictly lower than the original
quoted unit price, the unnegotiated entry is replaced by a negotiated entry
carrying the same quote id, the original quote's expiry, and a total
recomputed from the preserved original quantity (original total divided by
original unit price); if instead the oracle or fallback rejects, the state —
hence both cache partitions — is unchanged and the original unnegotiated
entry is still cached at its original price. -/
theorem negotiate_replaces_or_preserves (st : EngineState) (request : NegotiateRequest)
    (oracle : Option NegotiationDecision) (now : Time) (cached : CachedQuote)
    (hq : dictGet st.quote_store request.quote_id = some cached)
    (hexp : ¬ cached.expires_at ≤ now)
    (hlower : ¬ cached.quote.price_per_unit ≤ request.proposed_price_per_unit) :
    ∀ resp st', EngineFacade.negotiate st request oracle now = (.ok resp, st') →
      (resp.final_price_per_unit < cached.quote.price_per_unit →
        resp.accepted = true ∧
        st'.quote_store = dictDel st.quote_store request.quote_id ∧
        st'.negotiated_quote_store = dictSet st.negotiated_quote_store request.quote_id
          { quote := NegotiationService.create_new_quote cached.quote resp.final_price_per_unit
            expires_at := cached.quote.price_valid_until
            negotiated_at := now
            original_price := cached.quote.price_per_unit
            negotiated_price := resp.final_price_per_unit } ∧
        (NegotiationService.create_new_quote cached.quote resp.final_price_per_unit).quote_id
          = cached.quote.quote_id ∧
        (NegotiationService.create_new_quote cached.quote resp.final_price_per_unit).total_price
          = round2 (resp.final_price_per_unit *
              (cached.quote.total_price / cached.quote.price_per_unit)) ∧
        (NegotiationService.create_new_quote cached.quote
            resp.final_price_per_unit).price_valid_until
          = cached.quote.price_valid_until) ∧
      (resp.accepted = false → st' = st ∧
        dictGet st'.quote_store request.quote_id = some cached) := by
  intro resp st' h
  simp only [EngineFacade.negotiate, EngineFacade.get_unnegotiated_quotes, hq] at h
  rw [if_neg hexp, if_neg hlower] at h
  have hcases := negotiate_price_cases st.ingredients request cached.quote oracle
  split at h
  · rename_i nqvar hnqeq hacceq
    injection h with h1 h2
    injection h1 with h1
    subst h1
    subst h2
    constructor
    · intro hlt
      obtain ⟨hacc, hnew⟩ := hcases.2.1 hlt
      rw [hnqeq] at hnew
      injection hnew with hnew
      subst hnew
      exact ⟨hacc, rfl, rfl, rfl, rfl, rfl⟩
    · intro haccfalse
      rw [hacceq] at haccfalse
      cases haccfalse
  · rename_i hno
    injection h with h1 h2
    injection h1 with h1
    subst h1
    subst h2
    constructor
    · intro hlt
      obtain ⟨hacc, hnew⟩ := hcases.2.1 hlt
      exact absurd (hno _ hnew hacc) not_false
    · intro _
      exact ⟨rfl, hq⟩

/-- Fixture: the wQuote entry cached as a live unnegotiated entry. -/
def wCached : CachedQuote := { quote := wQuote, expires_at := 24 }

/-- Fixture: a state whose only live entry for id-0 is unnegotiated. -/
def wUnnegState : EngineState :=
  { ingredients := testCatalog
    quote_history := fun _ => []
    quote_store := [("id-0", wCached)]
    negotiated_quote_store := []
    next_id := 1 }

/-- Fixture: an oracle decision accepting a final price of 9. -/
def wDecision : NegotiationDecision :=
  { final_price_per_unit := 9, accepted := true, rationale := "deal" }

/-- Fixture: the NegotiateResponse the engine produces for wReq against
wUnnegState when the oracle returns wDecision. -/
def wResp : NegotiateResponse :=
  { original_quote := wQuote
    proposed_price_per_unit := 19/2
    final_price_per_unit := 9
    accepted := true
    llm_rationale := "deal"
    new_quote := some (NegotiationService.create_new_quote wQuote 9) }

/-- Fixture: the state after that successful negotiation. -/
def wState2 : EngineState :=
  { wUnnegState with
    quote_store := []
    negotiated_quote_store := [("id-0",
      { quote := NegotiationService.create_new_quote wQuote 9
        expires_at := 24
        negotiated_at := 2
        original_price := 10
        negotiated_price := 9 })] }

theorem wRun_eq :
    EngineFacade.negotiate wUnnegState wReq (some wDecision) 2 = (.ok wResp, wState2) := by
  have hnine : (9:ℚ) < 10 := by norm_num
  simp only [EngineFacade.negotiate, EngineFacade.get_unnegotiated_quotes,
    NegotiationService.negotiate_price, wUnnegState, wReq, wDecision, wCached, wQuote,
    dictGet, dictDel, dictSet, if_pos hnine]
  norm_num [wResp, wState2, wUnnegState, wQuote, wCached]

/-- Witness for C6: the concrete successful negotiation of id-0 down to 9 is
accepted, empties the unnegotiated partition, and recomputes the total from
the derived original quantity. -/
theorem negotiate_replaces_or_preserves_witness :
    wResp.accepted = true ∧
    wState2.quote_store = dictDel wUnnegState.quote_store wReq.quote_id ∧
    (NegotiationService.create_new_quote wQuote wResp.final_price_per_unit).total_price
      = round2 (wResp.final_price_per_unit * (wQuote.total_price / wQuote.price_per_unit)) := by
  have hq : dictGet wUnnegState.quote_store wReq.quote_id = some wCached := by
    simp [wUnnegState, wReq, dictGet]
  have hexp : ¬ wCached.expires_at ≤ (2:Time) := by norm_num [wCached, wQuote]
  have hlower : ¬ wCached.quote.price_per_unit ≤ wReq.proposed_price_per_unit := by
    norm_num [wCached, wQuote, wReq]
  have h := (negotiate_replaces_or_preserves wUnnegState wReq (some wDecision) 2 wCached
      hq hexp hlower wResp wState2 wRun_eq).1
    (by norm_num [wResp, wCached, wQuote])
  exact ⟨h.1, h.2.1, h.2.2.2.2.1⟩

/-! Claim C4: demand-based pricing. -/

/-- Claim C4: each demand-based get_price lookup for a known ingredient prunes
recorded timestamps older than the window and appends the current timestamp;
with n the recent count (after the append) and t the ingredient's configured
threshold, the returned unit price is the volume-discounted price unchanged
when n < t and round2(volume price × (1 + hike)^(n / t)) when n ≥ t; and once
every recorded timestamp has aged out of the window (with t > 1) the
multiplier is back to 1, the volume price being returned unchanged. -/
theorem demand_get_price_spec (cfg : Config) (st : EngineState) (ing : String)
    (qty : ℚ) (now : Time) (vinfo : PriceInfo) (params : DemandParams)
    (hvol : VolumeDiscountPricingService.get_price cfg st ing qty now = some vinfo)
    (hparams : cfg.demand_price_hikes ing = some params) :
    (DemandBasedPricingService.get_price cfg st ing qty now).2.quote_history ing
      = (st.quote_history ing).filter
          (fun ts => decide (now - cfg.demand_window_hours ≤ ts)) ++ [now] ∧
    (DemandBasedPricingService.get_price cfg st ing qty now).1
      = some (if ((st.quote_history ing).filter
              (fun ts => decide (now - cfg.demand_window_hours ≤ ts)) ++ [now]).length
              < params.quote_threshold
          then vinfo
          else { price_per_unit := round2 (vinfo.price_per_unit *
                  (1 + params.price_hike_percent)
                    ^ ((((st.quote_history ing).filter
                          (fun ts => decide (now - cfg.demand_window_hours ≤ ts))
                        ++ [now]).length) / params.quote_threshold))
                 price_valid_until := vinfo.price_valid_until }) ∧
    ((∀ ts ∈ st.quote_history ing, ts < now - cfg.demand_window_hours) →
      1 < params.quote_threshold →
      (DemandBasedPricingService.get_price cfg st ing qty now).1 = some vinfo) := by
  refine ⟨?_, ?_, ?_⟩
  · simp only [DemandBasedPricingService.get_price, hvol, hparams]
    split
    · exact Function.update_same _ _ _
    · exact Function.update_same _ _ _
  · simp only [DemandBasedPricingService.get_price, hvol, hparams]
    by_cases hth : params.quote_threshold ≤
        ((st.quote_history ing).filter
          (fun ts => decide (now - cfg.demand_window_hours ≤ ts)) ++ [now]).length
    · rw [if_pos hth, if_neg (not_lt.mpr hth)]
    · rw [if_neg hth, if_pos (lt_of_not_le hth)]
  · intro hold ht
    have hnil : (st.quote_history ing).filter
        (fun ts => decide (now - cfg.demand_window_hours ≤ ts)) = [] :=
      List.filter_eq_nil_iff.mpr (fun ts hts => by
        simpa using not_le.mpr (hold ts hts))
    simp only [DemandBasedPricingService.get_price, hvol, hparams]
    rw [hnil]
    rw [if_neg (by simpa using ht)]

/-- Witness for C4: with the dark roast config (threshold 5, hike 5 percent),
a state whose history holds four in-window timestamps prices the fifth lookup
with one hike: 8 × 1.05 = 8.40; and with only aged-out history the price is
the plain volume price 8. -/
theorem demand_get_price_spec_witness :
    ((DemandBasedPricingService.get_price testConfig
        { emptyState with quote_history := fun s =>
            if s = "dark_roast_beans" then [97, 98, 98, 99] else [] }
        "dark_roast_beans" 1 100).1.map PriceInfo.price_per_unit = some (42/5)) ∧
    ((DemandBasedPricingService.get_price testConfig
        { emptyState with quote_history := fun s =>
            if s = "dark_roast_beans" then [3, 7] else [] }
        "dark_roast_beans" 1 100).1.map PriceInfo.price_per_unit = some 8) := by
  constructor
  · have h := (demand_get_price_spec testConfig
      { emptyState with quote_history := fun s =>
          if s = "dark_roast_beans" then [97, 98, 98, 99] else [] }
      "dark_roast_beans" 1 100
      { price_per_unit := 8, price_valid_until := 124 }
      { quote_threshold := 5, price_hike_percent := 1/20 }
      (by simp only [VolumeDiscountPricingService.get_price,
            VolumeDiscountPricingService.applied_discount, emptyState, testCatalog,
            testConfig, testTiers, darkRoast, ONE_DAY]
          norm_num [round2])
      (by simp [testConfig, testHikes])).2.1
    rw [h]
    norm_num [testConfig, round2]
  · have h := (demand_get_price_spec testConfig
      { emptyState with quote_history := fun s =>
          if s = "dark_roast_beans" then [3, 7] else [] }
      "dark_roast_beans" 1 100
      { price_per_unit := 8, price_valid_until := 124 }
      { quote_threshold := 5, price_hike_percent := 1/20 }
      (by simp only [VolumeDiscountPricingService.get_price,
            VolumeDiscountPricingService.applied_discount, emptyState, testCatalog,
            testConfig, testTiers, darkRoast, ONE_DAY]
          norm_num [round2])
      (by simp [testConfig, testHikes])).2.2
        (by intro ts hts
            have hmem : ts = 3 ∨ ts = 7 := by simpa using hts
            rcases hmem with rfl | rfl <;> norm_num [testConfig])
        (by norm_num)
    rw [h]
    rfl

/-! Claim C5: the volume discount selects the last qualifying tier and the
price is non-increasing in quantity. -/

/-- Modelled from the spec wording, for comparison with the source loop: the
discount of the last tier whose minimum quantity is ≤ the requested quantity,
0 when no tier qualifies. -/
def specLastTierDiscount (tiers : List (ℚ × ℚ)) (quantity : ℚ) : ℚ :=
  match (tiers.filter (fun t => decide (t.1 ≤ quantity))).getLast? with
  | none => 0
  | some t => t.2

theorem applied_discount_eq_lastTier (tiers : List (ℚ × ℚ)) (q : ℚ)
    (hs : tiers.Pairwise (fun a b => a.1 ≤ b.1)) (acc : ℚ) :
    VolumeDiscountPricingService.applied_discount tiers q acc
      = match (tiers.filter (fun t => decide (t.1 ≤ q))).getLast? with
        | none => acc
        | some t => t.2 := by
  induction tiers generalizing acc with
  | nil => rfl
  | cons t rest ih =>
    rcases t with ⟨m, d⟩
    rcases List.pairwise_cons.mp hs with ⟨hhead, hrest⟩
    by_cases hm : m ≤ q
    · rw [show VolumeDiscountPricingService.applied_discount ((m, d) :: rest) q acc
          = VolumeDiscountPricingService.applied_discount rest q d by
            simp [VolumeDiscountPricingService.applied_discount, hm]]
      rw [ih hrest d]
      rw [List.filter_cons_of_pos (by simpa using hm)]
      cases hfr : rest.filter (fun t => decide (t.1 ≤ q)) with
      | nil => simp
      | cons x xs =>
        rw [List.getLast?_cons_cons]
        cases hxl : (x :: xs).getLast? with
        | none => rw [List.getLast?_eq_none_iff] at hxl; cases hxl
        | some y => rfl
    · rw [show VolumeDiscountPricingService.applied_discount ((m, d) :: rest) q acc = acc by
        simp [VolumeDiscountPricingService.applied_discount, hm]]
      rw [List.filter_cons_of_neg (by simpa using hm)]
      rw [List.filter_eq_nil_iff.mpr (fun b hb => by
        have hmb := hhead b hb
        simp only [decide_eq_true_eq]
        intro hbq
        exact hm (le_trans hmb hbq))]
      rfl

theorem applied_discount_ge_acc (tiers : List (ℚ × ℚ)) (q : ℚ)
    (hd : tiers.Pairwise (fun a b => a.2 ≤ b.2)) (acc : ℚ)
    (hacc : ∀ t ∈ tiers, acc ≤ t.2) :
    acc ≤ VolumeDiscountPricingService.applied_discount tiers q acc := by
  induction tiers generalizing acc with
  | nil => exact le_refl acc
  | cons t rest ih =>
    rcases t with ⟨m, d⟩
    rcases List.pairwise_cons.mp hd with ⟨hhead, hrest⟩
    by_cases hm : m ≤ q
    · simp only [VolumeDiscountPricingService.applied_discount, if_pos hm]
      have h1 : acc ≤ d := hacc (m, d) (by simp)
      have h2 : d ≤ VolumeDiscountPricingService.applied_discount rest q d :=
        ih hrest d (fun t ht => hhead t ht)
      linarith
    · simp only [VolumeDiscountPricingService.applied_discount, if_neg hm]
      exact le_refl acc

theorem applied_discount_mono (tiers : List (ℚ × ℚ)) (q1 q2 : ℚ) (h12 : q1 ≤ q2)
    (hp : tiers.Pairwise (fun a b => a.1 ≤ b.1 ∧ a.2 ≤ b.2)) (acc : ℚ)
    (hacc : ∀ t ∈ tiers, acc ≤ t.2) :
    VolumeDiscountPricingService.applied_discount tiers q1 acc
      ≤ VolumeDiscountPricingService.applied_discount tiers q2 acc := by
  induction tiers generalizing acc with
  | nil => exact le_refl acc
  | cons t rest ih =>
    rcases t with ⟨m, d⟩
    rcases List.pairwise_cons.mp hp with ⟨hhead, hrest⟩
    by_cases hm1 : m ≤ q1
    · have hm2 : m ≤ q2 := le_trans hm1 h12
      simp only [VolumeDiscountPricingService.applied_discount, if_pos hm1, if_pos hm2]
      exact ih hrest d (fun t ht => (hhead t ht).2)
    · by_cases hm2 : m ≤ q2
      · simp only [VolumeDiscountPricingService.applied_discount, if_neg hm1, if_pos hm2]
        have hd : rest.Pairwise (fun a b => a.2 ≤ b.2) :=
          hrest.imp (fun h => h.2)
        have h2 : d ≤ VolumeDiscountPricingService.applied_discount rest q2 d :=
          applied_discount_ge_acc rest q2 hd d (fun t ht => (hhead t ht).2)
        have haccd : acc ≤ d := hacc (m, d) (by simp)
        linarith
      · simp only [VolumeDiscountPricingService.applied_discount, if_neg hm1, if_neg hm2]
        exact le_refl acc

/-- Claim C5: for an ingredient whose tier table is sorted ascending by
minimum quantity with non-decreasing (nonnegative) discount fractions, the
volume-discounted unit price is round2(base price × (1 − d)) with d the
discount of the last tier whose minimum quantity is ≤ the quantity (0 when
none qualifies); and for a nonnegative base price the unit price is a
non-increasing function of the quantity. -/
theorem volume_price_spec (cfg : Config) (st : EngineState) (ing : String)
    (d : IngredientDefinition) (hing : st.ingredients ing = some d)
    (hsorted : (cfg.discount_tiers ing).Pairwise (fun a b => a.1 ≤ b.1 ∧ a.2 ≤ b.2))
    (hnonneg : ∀ t ∈ cfg.discount_tiers ing, 0 ≤ t.2)
    (hbase : 0 ≤ d.base_price) :
    (∀ q now, VolumeDiscountPricingService.get_price cfg st ing q now
        = some { price_per_unit := round2 (d.base_price *
                   (1 - specLastTierDiscount (cfg.discount_tiers ing) q))
                 price_valid_until := now + ONE_DAY }) ∧
    (∀ q1 q2 now1 now2 p1 p2, q1 ≤ q2 →
      VolumeDiscountPricingService.get_price cfg st ing q1 now1 = some p1 →
      VolumeDiscountPricingService.get_price cfg st ing q2 now2 = some p2 →
      p2.price_per_unit ≤ p1.price_per_unit) := by
  have hs1 : (cfg.discount_tiers ing).Pairwise (fun a b => a.1 ≤ b.1) :=
    hsorted.imp (fun h => h.1)
  have heq : ∀ q : ℚ, VolumeDiscountPricingService.applied_discount
      (cfg.discount_tiers ing) q 0 = specLastTierDiscount (cfg.discount_tiers ing) q := by
    intro q
    rw [applied_discount_eq_lastTier _ _ hs1 0]
    unfold specLastTierDiscount
    rfl
  constructor
  · intro q now
    simp only [VolumeDiscountPricingService.get_price, hing, heq q]
  · intro q1 q2 now1 now2 p1 p2 h12 h1 h2
    simp only [VolumeDiscountPricingService.get_price, hing] at h1 h2
    injection h1 with h1
    injection h2 with h2
    rw [← h1, ← h2]
    dsimp only
    apply round2_mono
    have hmono : VolumeDiscountPricingService.applied_discount (cfg.discount_tiers ing) q1 0
        ≤ VolumeDiscountPricingService.applied_discount (cfg.discount_tiers ing) q2 0 :=
      applied_discount_mono _ q1 q2 h12 hsorted 0 hnonneg
    have hfac : 1 - VolumeDiscountPricingService.applied_discount (cfg.discount_tiers ing) q2 0
        ≤ 1 - VolumeDiscountPricingService.applied_discount (cfg.discount_tiers ing) q1 0 := by
      linarith
    exact mul_le_mul_of_nonneg_left hfac hbase

/-- Witness for C5: with the dark roast tier table, 12 kg gets the 10 percent
tier (7.20) and 30 kg the 20 percent tier (6.40), and the theorem yields the
monotone comparison between the two concrete quotes. -/
theorem volume_price_spec_witness :
    VolumeDiscountPricingService.get_price testConfig emptyState "dark_roast_beans" 12 0
      = some { price_per_unit := 36/5, price_valid_until := 24 } ∧
    VolumeDiscountPricingService.get_price testConfig emptyState "dark_roast_beans" 30 0
      = some { price_per_unit := 32/5, price_valid_until := 24 } ∧
    (32:ℚ)/5 ≤ 36/5 := by
  have heq1 : VolumeDiscountPricingService.get_price testConfig emptyState
      "dark_roast_beans" 12 0 = some { price_per_unit := 36/5, price_valid_until := 24 } := by
    simp only [VolumeDiscountPricingService.get_price,
      VolumeDiscountPricingService.applied_discount, emptyState, testCatalog,
      testConfig, testTiers, darkRoast, ONE_DAY]
    norm_num [round2]
  have heq2 : VolumeDiscountPricingService.get_price testConfig emptyState
      "dark_roast_beans" 30 0 = some { price_per_unit := 32/5, price_valid_until := 24 } := by
    simp only [VolumeDiscountPricingService.get_price,
      VolumeDiscountPricingService.applied_discount, emptyState, testCatalog,
      testConfig, testTiers, darkRoast, ONE_DAY]
    norm_num [round2]
  refine ⟨heq1, heq2, ?_⟩
  exact (volume_price_spec testConfig emptyState "dark_roast_beans" darkRoast
    (by simp [emptyState, testCatalog])
    (by norm_num [testConfig, testTiers])
    (by norm_num [testConfig, testTiers])
    (by norm_num [darkRoast])).2 12 30 0 0 _ _ (by norm_num) heq1 heq2

/-! Claim C3: the eviction sweep and its trigger condition. -/

theorem cleanup_removes_expired (s : EngineState) (now : Time) :
    (∀ p ∈ (EngineFacade.cleanup_quote_store s now).quote_store,
      now < p.2.expires_at) ∧
    (∀ p ∈ (EngineFacade.cleanup_quote_store s now).negotiated_quote_store,
      now < p.2.expires_at) := by
  constructor
  · intro p hp
    have h := List.mem_filter.mp hp
    exact not_le.mp (by simpa using h.2)
  · intro p hp
    have h := List.mem_filter.mp hp
    exact not_le.mp (by simpa using h.2)

/-- Claim C3 (amended): the sweep trigger counts only the unnegotiated
partition.  After a quote insertion by get_quote, if the number of entries in
the unnegotiated partition (after the insertion, with a fresh id) exceeds the
configured threshold, then the sweep runs and removes from both partitions
every entry whose expires_at has passed: every surviving entry in either
partition is unexpired. -/
theorem get_quote_sweep_spec (cfg : Config) (st : EngineState) (ing : String) (qty : ℚ)
    (now : Time) (q : QuoteResponse) (st' : EngineState)
    (hfresh : dictGet st.quote_store (genId st.next_id) = none)
    (hlen : cfg.quote_cleanup_threshold < st.quote_store.length + 1)
    (hrun : EngineFacade.get_quote cfg st ing qty now = (.ok q, st')) :
    (∀ p ∈ st'.quote_store, now < p.2.expires_at) ∧
    (∀ p ∈ st'.negotiated_quote_store, now < p.2.expires_at) := by
  unfold EngineFacade.get_quote at hrun
  split at hrun
  · exact absurd hrun (by simp)
  · rename_i ingDef hing
    split at hrun
    · exact absurd hrun (by simp)
    · rename_i pi st1 hpair
      split at hrun
      · exact absurd hrun (by simp)
      · rename_i stock hstock
        split at hrun
        · exact absurd hrun (by simp)
        · rename_i hlt
          have hst1 : st1 = { st with quote_history := st1.quote_history } := by
            have h := demand_get_price_state cfg st ing qty now
            rw [hpair] at h
            exact h
          injection hrun with h1 h2
          rw [← h2]
          dsimp only
          split
          · exact cleanup_removes_expired _ now
          · rename_i hcond
            refine absurd ?_ hcond
            rw [dictSet_fresh _ _ _ ?_]
            · rw [List.length_append]
              have hq1 : st1.quote_store = st.quote_store := by rw [hst1]
              rw [hq1]
              simpa using hlen
            · have hq1 : st1.quote_store = st.quote_store := by rw [hst1]
              have hn1 : st1.next_id = st.next_id := by rw [hst1]
              rw [hq1, hn1]
              exact hfresh

/-- Fixture for the C3 counterexample: an unexpired unnegotiated entry. -/
def c3ea : CachedQuote := { quote := wQuote, expires_at := 200 }

/-- Fixture: an expired negotiated entry (expires_at 50 has passed at 100). -/
def c3nb : NegotiatedCachedQuote :=
  { quote := wQuote, expires_at := 50, negotiated_at := 1
    original_price := 10, negotiated_price := 9 }

/-- Fixture: an unexpired negotiated entry. -/
def c3nc : NegotiatedCachedQuote :=
  { quote := wQuote, expires_at := 300, negotiated_at := 1
    original_price := 10, negotiated_price := 9 }

/-- Fixture: the test config with cleanup threshold 2. -/
def c3Config : Config := { testConfig with quote_cleanup_threshold := 2 }

/-- Fixture: one unnegotiated entry, two negotiated entries (one expired). -/
def c3State : EngineState :=
  { ingredients := testCatalog
    quote_history := fun _ => []
    quote_store := [("a", c3ea)]
    negotiated_quote_store := [("b", c3nb), ("c", c3nc)]
    next_id := 7 }

/-- The quote get_quote issues on the C3 counterexample state. -/
def c3NewQuote : QuoteResponse :=
  { quote_id := "id-7"
    ingredient_id := "dark_roast_beans"
    name := darkRoast.name
    description := darkRoast.description
    unit_of_measure := "kg"
    price_per_unit := 8
    total_price := 8
    currency := "USD"
    available_stock := 100
    delivery_time := 24
    use_by_date := 168
    price_valid_until := 124 }

/-- The state after that get_quote: both stores kept as they were (plus the
new entry), no sweep. -/
def c3State2 : EngineState :=
  { c3State with
    quote_history := Function.update c3State.quote_history "dark_roast_beans" [100]
    quote_store := [("a", c3ea), ("id-7", { quote := c3NewQuote, expires_at := 124 })]
    next_id := 8 }

theorem c3Run_eq :
    EngineFacade.get_quote c3Config c3State "dark_roast_beans" 1 100
      = (.ok c3NewQuote, c3State2) := by
  simp [EngineFacade.get_quote, DemandBasedPricingService.get_price,
    VolumeDiscountPricingService.get_price, VolumeDiscountPricingService.applied_discount,
    InventoryService.get_stock, EngineFacade.cleanup_quote_store, c3Config, c3State,
    testConfig, testTiers, testHikes, testCatalog, darkRoast, ONE_DAY, dictSet,
    c3NewQuote, c3State2, Function.update, show genId 7 = "id-7" from rfl]
  norm_num [round2]

/-- Counterexample for C3 as frozen: after the insertion the total number of
entries across both partitions (4) exceeds the configured threshold (2), yet
no sweep ran — the expired negotiated entry b (expires_at 50 ≤ now = 100) is
still stored, because the trigger compares only the unnegotiated partition
size (2, not above the threshold). -/
theorem get_quote_sweep_counterexample :
    ((EngineFacade.get_quote c3Config c3State "dark_roast_beans" 1 100).1
      = .ok c3NewQuote) ∧
    c3Config.quote_cleanup_threshold
      < (EngineFacade.get_quote c3Config c3State "dark_roast_beans" 1 100).2.quote_store.length
        + (EngineFacade.get_quote c3Config c3State
            "dark_roast_beans" 1 100).2.negotiated_quote_store.length ∧
    dictGet (EngineFacade.get_quote c3Config c3State
        "dark_roast_beans" 1 100).2.negotiated_quote_store "b" = some c3nb ∧
    c3nb.expires_at ≤ 100 := by
  rw [c3Run_eq]
  refine ⟨rfl, ?_, ?_, ?_⟩
  · norm_num [c3State2, c3State, c3Config, testConfig]
  · simp [c3State2, c3State, dictGet]
  · norm_num [c3nb]

/-- Fixture: the C3 witness config, threshold 0 so any insertion sweeps. -/
def c3wConfig : Config := { testConfig with quote_cleanup_threshold := 0 }

/-- Fixture: the C3 witness start state, empty unnegotiated partition. -/
def c3wState : EngineState := { c3State with quote_store := [] }

/-- Fixture: the state after the witness get_quote: the sweep ran and dropped
the expired negotiated entry b. -/
def c3wState2 : EngineState :=
  { c3State with
    quote_history := Function.update c3State.quote_history "dark_roast_beans" [100]
    quote_store := [("id-7", { quote := c3NewQuote, expires_at := 124 })]
    negotiated_quote_store := [("c", c3nc)]
    next_id := 8 }

theorem c3wRun_eq :
    EngineFacade.get_quote c3wConfig c3wState "dark_roast_beans" 1 100
      = (.ok c3NewQuote, c3wState2) := by
  simp [EngineFacade.get_quote, DemandBasedPricingService.get_price,
    VolumeDiscountPricingService.get_price, VolumeDiscountPricingService.applied_discount,
    InventoryService.get_stock, EngineFacade.cleanup_quote_store, c3wConfig, c3wState,
    c3State, testConfig, testTiers, testHikes, testCatalog, darkRoast, ONE_DAY, dictSet,
    c3NewQuote, c3wState2, c3nb, c3nc, Function.update, show genId 7 = "id-7" from rfl]
  norm_num [round2]

/-- Witness for the amended C3: with threshold 0 the insertion triggers the
sweep, so every entry surviving in either partition is unexpired. -/
theorem get_quote_sweep_spec_witness :
    (∀ p ∈ c3wState2.quote_store, (100:Time) < p.2.expires_at) ∧
    (∀ p ∈ c3wState2.negotiated_quote_store, (100:Time) < p.2.expires_at) :=
  get_quote_sweep_spec c3wConfig c3wState "dark_roast_beans" 1 100 c3NewQuote c3wState2
    (by simp [c3wState, c3State, dictGet]) (by norm_num [c3wConfig, c3wState, c3State])
    c3wRun_eq

/-! Machinery for the buy claims: a characterization of every .ok outcome. -/

theorem round2_zero_mul (q : ℚ) : round2 (0 * q) = 0 := by
  rw [zero_mul, round2_zero]

theorem failed_order_ok (st : EngineState) (now : Time) (bid : Option String)
    (iid : String) (q : ℚ) (ubd ed : Time) (status reason : String)
    (qid : Option String) (o : OrderResponse) (st' : EngineState)
    (h : EngineFacade.failed_order st now bid (some iid) q ubd ed status reason qid
      = .ok (o, st')) :
    o = OrderService.create_order st.next_id now bid
        { ingredient_id := iid, quantity := q, price_per_unit_paid := 0,
          total_price := 0, use_by_date := ubd } ed status (some reason) qid ∧
    st' = { st with next_id := st.next_id + 1 } := by
  unfold EngineFacade.failed_order at h
  injection h with h
  injection h with h1 h2
  exact ⟨h1.symm, h2.symm⟩

/-- Every item of a create_order record: the single entry carrying the item. -/
theorem create_order_items (uid : ℕ) (now : Time) (bid : Option String) (item : OrderItem)
    (ed : Time) (status : String) (fr : Option String) (qid : Option String) :
    (OrderService.create_order uid now bid item ed status fr qid).items
      = [(item.ingredient_id, item)] := rfl

theorem buy_rest_spec (st : EngineState) (req : BuyRequest) (now : Time) (iid : String)
    (ing_def : IngredientDefinition) (price : ℚ) (o : OrderResponse) (st' : EngineState)
    (h : EngineFacade.buy_rest st req now iid ing_def price = .ok (o, st')) :
    (∀ p ∈ o.items, p.2.total_price = round2 (p.2.price_per_unit_paid * p.2.quantity) ∧
      p.2.quantity = req.quantity) ∧
    (o.status = "CONFIRMED" → truthy req.quote_id = true →
      dictGet st'.quote_store (req.quote_id.getD "") = none ∧
      dictGet st'.negotiated_quote_store (req.quote_id.getD "") = none) ∧
    (o.status ≠ "FAILED_INVALID_QUOTE:QUOTE_EXPIRED" ∧
      o.status ≠ "FAILED_INVALID_QUOTE:INGREDIENT_MISMATCH") := by
  unfold EngineFacade.buy_rest at h
  dsimp only at h
  split at h
  · obtain ⟨ho, hst⟩ := failed_order_ok _ _ _ _ _ _ _ _ _ _ _ _ h
    subst ho
    refine ⟨?_, ?_, by simp [OrderService.create_order], by simp [OrderService.create_order]⟩
    · intro p hp
      rw [create_order_items] at hp
      simp only [List.mem_singleton] at hp
      subst hp
      refine ⟨?_, rfl⟩
      rw [round2_zero_mul]
    · intro hconf
      simp [OrderService.create_order] at hconf
  · split at h
    · obtain ⟨ho, hst⟩ := failed_order_ok _ _ _ _ _ _ _ _ _ _ _ _ h
      subst ho
      refine ⟨?_, ?_, by simp [OrderService.create_order], by simp [OrderService.create_order]⟩
      · intro p hp
        rw [create_order_items] at hp
        simp only [List.mem_singleton] at hp
        subst hp
        refine ⟨?_, rfl⟩
        rw [round2_zero_mul]
      · intro hconf
        simp [OrderService.create_order] at hconf
    · split at h
      · obtain ⟨ho, hst⟩ := failed_order_ok _ _ _ _ _ _ _ _ _ _ _ _ h
        subst ho
        refine ⟨?_, ?_, by simp [OrderService.create_order], by simp [OrderService.create_order]⟩
        · intro p hp
          rw [create_order_items] at hp
          simp only [List.mem_singleton] at hp
          subst hp
          refine ⟨?_, rfl⟩
          rw [round2_zero_mul]
        · intro hconf
          simp [OrderService.create_order] at hconf
      · rename_i st1 hconsume
        injection h with h
        injection h with h1 h2
        refine ⟨?_, ?_, ?_, ?_⟩
        · intro p hp
          rw [← h1, create_order_items] at hp
          simp only [List.mem_singleton] at hp
          subst hp
          exact ⟨rfl, rfl⟩
        · intro _ htruthy
          rw [← h2]
          dsimp only
          rw [show (if truthy req.quote_id then
              { st1 with
                quote_store := dictDel st1.quote_store (req.quote_id.getD "")
                negotiated_quote_store :=
                  dictDel st1.negotiated_quote_store (req.quote_id.getD "") }
              else st1) = { st1 with
                quote_store := dictDel st1.quote_store (req.quote_id.getD "")
                negotiated_quote_store :=
                  dictDel st1.negotiated_quote_store (req.quote_id.getD "") }
            from if_pos htruthy]
          exact ⟨dictGet_dictDel_self _ _, dictGet_dictDel_self _ _⟩
        · rw [← h1]
          simp [OrderService.create_order]
        · rw [← h1]
          simp [OrderService.create_order]

theorem failed_order_facts (st : EngineState) (now : Time) (bid : Option String)
    (miid : Option String) (q : ℚ) (ubd ed : Time) (status reason : String)
    (qid : Option String) (o : OrderResponse) (st' : EngineState)
    (h : EngineFacade.failed_order st now bid miid q ubd ed status reason qid
      = .ok (o, st')) :
    (∀ p ∈ o.items, p.2.total_price = round2 (p.2.price_per_unit_paid * p.2.quantity) ∧
      p.2.quantity = q) ∧ o.status = status := by
  unfold EngineFacade.failed_order at h
  split at h
  · exact absurd h (by simp)
  · injection h with h
    injection h with h1 h2
    subst h1
    constructor
    · intro p hp
      rw [create_order_items] at hp
      simp only [List.mem_singleton] at hp
      subst hp
      exact ⟨by rw [round2_zero_mul], rfl⟩
    · rfl

/-- The complete characterization of every non-raising buy outcome, shared by
the buy claims: every order item records the requested quantity and a total
that is the rounded unit-times-quantity product; a CONFIRMED order under a
truthy quote id leaves that id in neither cache partition; and when the quote
id misses both partitions at call time, the order cannot carry either
quote-validation failure status. -/
theorem lookup_cached_none (st : EngineState) (qid : String)
    (h1 : EngineFacade.get_unnegotiated_quotes st qid = none)
    (h2 : EngineFacade.get_negotiated_quotes st qid = none) :
    EngineFacade.lookup_cached st qid = none := by
  unfold EngineFacade.lookup_cached
  rw [h1, h2]
  rfl

theorem buy_ok_spec (cfg : Config) (st : EngineState) (req : BuyRequest) (now : Time)
    (o : OrderResponse) (st' : EngineState)
    (h : EngineFacade.buy cfg st req now = .ok (o, st')) :
    (∀ p ∈ o.items, p.2.total_price = round2 (p.2.price_per_unit_paid * p.2.quantity) ∧
      p.2.quantity = req.quantity) ∧
    (o.status = "CONFIRMED" → truthy req.quote_id = true →
      dictGet st'.quote_store (req.quote_id.getD "") = none ∧
      dictGet st'.negotiated_quote_store (req.quote_id.getD "") = none) ∧
    (EngineFacade.get_unnegotiated_quotes st (req.quote_id.getD "") = none →
      EngineFacade.get_negotiated_quotes st (req.quote_id.getD "") = none →
      o.status ≠ "FAILED_INVALID_QUOTE:QUOTE_EXPIRED" ∧
      o.status ≠ "FAILED_INVALID_QUOTE:INGREDIENT_MISMATCH") := by
  unfold EngineFacade.buy at h
  split at h
  · exact absurd h (by simp [EngineFacade.failed_order])
  · split at h
    · obtain ⟨hitems, hstatus⟩ := failed_order_facts _ _ _ _ _ _ _ _ _ _ _ _ h
      refine ⟨hitems, ?_, ?_⟩
      · intro hconf
        rw [hstatus] at hconf
        exact absurd hconf (by decide)
      · intro _ _
        rw [hstatus]
        exact ⟨by decide, by decide⟩
    · exact absurd h (by simp)
    · rename_i iid ing_def hbind
      split at h
      · rename_i htruthy
        split at h
        · rename_i hcached
          split at h
          · obtain ⟨hitems, hstatus⟩ := failed_order_facts _ _ _ _ _ _ _ _ _ _ _ _ h
            refine ⟨hitems, ?_, ?_⟩
            · intro hconf
              rw [hstatus] at hconf
              exact absurd hconf (by decide)
            · intro _ _
              rw [hstatus]
              exact ⟨by decide, by decide⟩
          · have hspec := buy_rest_spec _ _ _ _ _ _ _ _ h
            exact ⟨hspec.1, hspec.2.1, fun _ _ => hspec.2.2⟩
        · rename_i cq cexp hcached
          split at h
          · obtain ⟨hitems, hstatus⟩ := failed_order_facts _ _ _ _ _ _ _ _ _ _ _ _ h
            refine ⟨hitems, ?_, ?_⟩
            · intro hconf
              rw [hstatus] at hconf
              exact absurd hconf (by decide)
            · intro hga hgb
              have hnone := lookup_cached_none st (req.quote_id.getD "") hga hgb
              rw [hnone] at hcached
              cases hcached
          · split at h
            · obtain ⟨hitems, hstatus⟩ := failed_order_facts _ _ _ _ _ _ _ _ _ _ _ _ h
              refine ⟨hitems, ?_, ?_⟩
              · intro hconf
                rw [hstatus] at hconf
                exact absurd hconf (by decide)
              · intro hga hgb
                have hnone := lookup_cached_none st (req.quote_id.getD "") hga hgb
                rw [hnone] at hcached
                cases hcached
            · have hspec := buy_rest_spec _ _ _ _ _ _ _ _ h
              exact ⟨hspec.1, hspec.2.1, fun _ _ => hspec.2.2⟩
      · split at h
        · obtain ⟨hitems, hstatus⟩ := failed_order_facts _ _ _ _ _ _ _ _ _ _ _ _ h
          refine ⟨hitems, ?_, ?_⟩
          · intro hconf
            rw [hstatus] at hconf
            exact absurd hconf (by decide)
          · intro _ _
            rw [hstatus]
            exact ⟨by decide, by decide⟩
        · have hspec := buy_rest_spec _ _ _ _ _ _ _ _ h
          exact ⟨hspec.1, hspec.2.1, fun _ _ => hspec.2.2⟩

/-! Claim C2: the buy call raises on a request with no ingredient id. -/

/-- Claim C2 (code bug): buy does not return an order for the invalid-request
input the claim covers — with neither quote_id nor ingredient_id, the
FAILED_INVALID_REQUEST branch constructs OrderItem with ingredient_id=None,
which pydantic rejects (OrderItem.ingredient_id is a required str), so buy
raises a ValidationError to its caller instead of returning the audit order. -/
theorem buy_raises_on_missing_ingredient (cfg : Config) (st : EngineState) (now : Time)
    (qty : ℚ) (maxp : Option ℚ) (bid : Option String) :
    EngineFacade.buy cfg st
      { quote_id := none, ingredient_id := none, quantity := qty,
        max_acceptable_price_per_unit := maxp, business_id := bid } now
      = .error .pydanticValidationError := rfl

/-! Claim C1: a quote id funds a buy at the quoted price at most once. -/

/-- Claim C1 (amended): a successful CONFIRMED buy that referenced a (truthy)
quote id evicts that id from both cache partitions, and a second buy
referencing the same id can no longer fail with the quote-expired or
ingredient-mismatch statuses (the only quote-validation failures in the
code): the cache lookup misses and the engine silently falls back to a
freshly computed price, under which the buy may succeed again — but never
again at the cached quoted price. -/
theorem buy_consumes_quote_once (cfg : Config) (st : EngineState) (req : BuyRequest)
    (now : Time) (o : OrderResponse) (st' : EngineState)
    (h : EngineFacade.buy cfg st req now = .ok (o, st'))
    (htruthy : truthy req.quote_id = true)
    (hconf : o.status = "CONFIRMED") :
    (dictGet st'.quote_store (req.quote_id.getD "") = none ∧
      dictGet st'.negotiated_quote_store (req.quote_id.getD "") = none) ∧
    (∀ req2 now2 o2 st2, req2.quote_id = req.quote_id →
      EngineFacade.buy cfg st' req2 now2 = .ok (o2, st2) →
      o2.status ≠ "FAILED_INVALID_QUOTE:QUOTE_EXPIRED" ∧
      o2.status ≠ "FAILED_INVALID_QUOTE:INGREDIENT_MISMATCH") := by
  have hevict := (buy_ok_spec cfg st req now o st' h).2.1 hconf htruthy
  refine ⟨hevict, ?_⟩
  intro req2 now2 o2 st2 hqid h2
  refine (buy_ok_spec cfg st' req2 now2 o2 st2 h2).2.2 ?_ ?_
  · show dictGet st'.quote_store (req2.quote_id.getD "") = none
    rw [hqid]
    exact hevict.1
  · show dictGet st'.negotiated_quote_store (req2.quote_id.getD "") = none
    rw [hqid]
    exact hevict.2

/-! Claim C8: totals are rounded unit-times-quantity products. -/

/-- Claim C8 (amended): every quote from get_quote totals
round2(unit price × requested quantity); every order item from buy totals
round2(unit price paid × recorded quantity) with the recorded quantity equal
to the requested one; and every negotiated quote from negotiate totals
round2(new unit price × derived quantity), where the derived quantity is the
original total divided by the original unit price — not necessarily the
quantity requested when the quote was created, since the original total was
itself rounded. -/
theorem totals_are_rounded_products :
    (∀ cfg st ing qty now q st',
      EngineFacade.get_quote cfg st ing qty now = (.ok q, st') →
      q.total_price = round2 (q.price_per_unit * qty)) ∧
    (∀ cfg st req now o st',
      EngineFacade.buy cfg st req now = .ok (o, st') →
      ∀ p ∈ o.items, p.2.quantity = req.quantity ∧
        p.2.total_price = round2 (p.2.price_per_unit_paid * p.2.quantity)) ∧
    (∀ st req oracle now resp st' nq,
      EngineFacade.negotiate st req oracle now = (.ok resp, st') →
      resp.new_quote = some nq →
      nq.total_price = round2 (nq.price_per_unit *
        (resp.original_quote.total_price / resp.original_quote.price_per_unit))) := by
  refine ⟨?_, ?_, ?_⟩
  · intro cfg st ing qty now q st' hrun
    unfold EngineFacade.get_quote at hrun
    split at hrun
    · exact absurd hrun (by simp)
    · split at hrun
      · exact absurd hrun (by simp)
      · split at hrun
        · exact absurd hrun (by simp)
        · split at hrun
          · exact absurd hrun (by simp)
          · injection hrun with h1 h2
            injection h1 with h1
            rw [← h1]
  · intro cfg st req now o st' hrun p hp
    have h := (buy_ok_spec cfg st req now o st' hrun).1 p hp
    exact ⟨h.2, h.1⟩
  · intro st req oracle now resp st' nq hrun hnq
    unfold EngineFacade.negotiate at hrun
    split at hrun
    · exact absurd hrun (by simp)
    · rename_i cached hcached
      split at hrun
      · exact absurd hrun (by simp)
      · dsimp only at hrun
        split at hrun
        · exact absurd hrun (by simp)
        · have hcases := negotiate_price_cases st.ingredients req cached.quote oracle
          have hresp : resp = NegotiationService.negotiate_price st.ingredients req
              cached.quote oracle := by
            split at hrun
            · injection hrun with h1 h2
              injection h1 with h1
              exact h1.symm
            · injection hrun with h1 h2
              injection h1 with h1
              exact h1.symm
          by_cases hlt : (NegotiationService.negotiate_price st.ingredients req
              cached.quote oracle).final_price_per_unit < cached.quote.price_per_unit
          · obtain ⟨_, hnew⟩ := hcases.2.1 hlt
            rw [hresp, hnew] at hnq
            injection hnq with hnq
            rw [← hnq, hresp, hcases.1]
            rfl
          · have hnone := hcases.2.2 hlt
            rw [hresp, hnone] at hnq
            cases hnq

/-- C8 witness: the concrete quote issued in the C3 run satisfies
total = round2(unit × requested quantity). -/
theorem totals_are_rounded_products_witness :
    c3NewQuote.total_price = round2 (c3NewQuote.price_per_unit * 1) :=
  totals_are_rounded_products.1 c3Config c3State "dark_roast_beans" 1 100 c3NewQuote
    c3State2 c3Run_eq

/-- Fixture for the C8 counterexample: the quote get_quote issues for
0.333 kg of espresso at 12.50: the total 4.16 is already rounded. -/
def c8Quote : QuoteResponse :=
  { quote_id := "id-0"
    ingredient_id := "espresso_beans"
    name := espresso.name
    description := espresso.description
    unit_of_measure := "kg"
    price_per_unit := 25/2
    total_price := 104/25
    currency := "USD"
    available_stock := 100
    delivery_time := 24
    use_by_date := 168
    price_valid_until := 24 }

/-- The state after issuing c8Quote. -/
def c8State1 : EngineState :=
  { emptyState with
    quote_history := Function.update emptyState.quote_history "espresso_beans" [0]
    quote_store := [("id-0", { quote := c8Quote, expires_at := 24 })]
    next_id := 1 }

theorem c8Quote_eq :
    EngineFacade.get_quote testConfig emptyState "espresso_beans" (333/1000) 0
      = (.ok c8Quote, c8State1) := by
  simp [EngineFacade.get_quote, DemandBasedPricingService.get_price,
    VolumeDiscountPricingService.get_price, VolumeDiscountPricingService.applied_discount,
    InventoryService.get_stock, EngineFacade.cleanup_quote_store, emptyState, testConfig,
    testTiers, testHikes, testCatalog, espresso, darkRoast, ONE_DAY, dictSet, c8Quote,
    c8State1, Function.update, show genId 0 = "id-0" from rfl]
  norm_num [round2]

/-- Fixture: a counter-offer of 12 against c8Quote. -/
def c8Req : NegotiateRequest :=
  { quote_id := "id-0", proposed_price_per_unit := 12, rationale := "volume deal" }

/-- Fixture: an oracle decision accepting 12. -/
def c8Decision : NegotiationDecision :=
  { final_price_per_unit := 12, accepted := true, rationale := "accepted" }

/-- Counterexample for C8 as frozen: the quote was created for the requested
quantity 0.333, but the negotiated quote recomputes its quantity as
total/price = 4.16/12.5 = 0.3328, so its total is round2(12 × 0.3328) = 3.99
whereas round2(12 × 0.333) = 4.00 — the negotiated total does not equal
round2(unit × requested quantity). -/
theorem negotiated_total_counterexample :
    (EngineFacade.get_quote testConfig emptyState "espresso_beans" (333/1000) 0
      = (.ok c8Quote, c8State1)) ∧
    (((EngineFacade.negotiate c8State1 c8Req (some c8Decision) 1).1.toOption.bind
        NegotiateResponse.new_quote).map QuoteResponse.total_price = some (399/100)) ∧
    round2 (12 * (333/1000)) = 4 ∧
    ((399:ℚ)/100) ≠ 4 := by
  refine ⟨c8Quote_eq, ?_, by norm_num [round2], by norm_num⟩
  simp [EngineFacade.negotiate, EngineFacade.get_unnegotiated_quotes,
    NegotiationService.negotiate_price, NegotiationService.create_new_quote,
    c8State1, c8Req, c8Decision, c8Quote, emptyState, espresso, dictGet, dictDel,
    dictSet, Except.toOption]
  norm_num [round2]

/-- Fixture for the C1 counterexample: a cached quote for dark roast at unit
price 7 (below the current computed price 8). -/
def c1Quote : QuoteResponse :=
  { quote_id := "id-0"
    ingredient_id := "dark_roast_beans"
    name := darkRoast.name
    description := darkRoast.description
    unit_of_measure := "kg"
    price_per_unit := 7
    total_price := 7
    currency := "USD"
    available_stock := 100
    delivery_time := 24
    use_by_date := 168
    price_valid_until := 24 }

/-- Fixture: state holding the cached c1Quote. -/
def c1State : EngineState :=
  { ingredients := testCatalog
    quote_history := fun _ => []
    quote_store := [("id-0", { quote := c1Quote, expires_at := 24 })]
    negotiated_quote_store := []
    next_id := 5 }

/-- Fixture: a buy request referencing the cached quote id. -/
def c1Req : BuyRequest :=
  { quote_id := some "id-0"
    ingredient_id := some "dark_roast_beans"
    quantity := 1
    max_acceptable_price_per_unit := none
    business_id := none }

/-- The first buy: CONFIRMED at the cached unit price 7. -/
def c1Order1 : OrderResponse :=
  { order_id := "id-5"
    business_id := none
    items := [("dark_roast_beans",
      { ingredient_id := "dark_roast_beans", quantity := 1, price_per_unit_paid := 7,
        total_price := 7, use_by_date := 169 })]
    total_cost := 7
    order_placed_at := 1
    expected_delivery := 25
    status := "CONFIRMED"
    failure_reason := none
    quote_id := some "id-0" }

/-- The state after the first buy: stock 99, quote id evicted. -/
def c1State1 : EngineState :=
  { ingredients := Function.update testCatalog "dark_roast_beans"
      (some { darkRoast with stock := 99 })
    quote_history := fun _ => []
    quote_store := []
    negotiated_quote_store := []
    next_id := 6 }

theorem c1Run1_eq :
    EngineFacade.buy testConfig c1State c1Req 1 = .ok (c1Order1, c1State1) := by
  simp [EngineFacade.buy, EngineFacade.buy_rest, EngineFacade.lookup_cached,
    EngineFacade.get_unnegotiated_quotes, EngineFacade.get_negotiated_quotes,
    EngineFacade.failed_order, OrderService.create_order, InventoryService.get_stock,
    InventoryService.consume_stock, DemandBasedPricingService.get_price,
    VolumeDiscountPricingService.get_price, VolumeDiscountPricingService.applied_discount,
    truthy, dictGet, dictDel, dictSet, c1State, c1Req, c1Quote, c1Order1, c1State1,
    testConfig, testTiers, testHikes, testCatalog, darkRoast, ONE_DAY, EXPECTED_DELIVERY,
    Function.update, show genId 5 = "id-5" from rfl]
  norm_num [round2]

/-- The second buy referencing the same id: the cache misses, the engine
silently reprices at 8, and the order is CONFIRMED again. -/
def c1Order2 : OrderResponse :=
  { order_id := "id-6"
    business_id := none
    items := [("dark_roast_beans",
      { ingredient_id := "dark_roast_beans", quantity := 1, price_per_unit_paid := 8,
        total_price := 8, use_by_date := 169 })]
    total_cost := 8
    order_placed_at := 1
    expected_delivery := 25
    status := "CONFIRMED"
    failure_reason := none
    quote_id := some "id-0" }

/-- The state after the second buy: stock 98, demand recorded. -/
def c1State2 : EngineState :=
  { ingredients := Function.update c1State1.ingredients "dark_roast_beans"
      (some { darkRoast with stock := 98 })
    quote_history := Function.update c1State1.quote_history "dark_roast_beans" [1]
    quote_store := []
    negotiated_quote_store := []
    next_id := 7 }

theorem c1Run2_eq :
    EngineFacade.buy testConfig c1State1 c1Req 1 = .ok (c1Order2, c1State2) := by
  simp [EngineFacade.buy, EngineFacade.buy_rest, EngineFacade.lookup_cached,
    EngineFacade.get_unnegotiated_quotes, EngineFacade.get_negotiated_quotes,
    EngineFacade.failed_order, OrderService.create_order, InventoryService.get_stock,
    InventoryService.consume_stock, DemandBasedPricingService.get_price,
    VolumeDiscountPricingService.get_price, VolumeDiscountPricingService.applied_discount,
    truthy, dictGet, dictDel, dictSet, c1State1, c1Req, c1Order2, c1State2,
    testConfig, testTiers, testHikes, testCatalog, darkRoast, ONE_DAY, EXPECTED_DELIVERY,
    Function.update, show genId 6 = "id-6" from rfl]
  norm_num [round2]

/-- Counterexample for C1 as frozen: after the cached quote funds a CONFIRMED
buy at the quoted price 7, a second buy referencing the same id does not fail
with expired/not-found behavior — it is CONFIRMED again, at the freshly
computed price 8. -/
theorem buy_quote_reuse_counterexample :
    (EngineFacade.buy testConfig c1State c1Req 1 = .ok (c1Order1, c1State1)) ∧
    c1Order1.status = "CONFIRMED" ∧
    c1Order1.items.map (fun p => p.2.price_per_unit_paid) = [7] ∧
    (EngineFacade.buy testConfig c1State1 c1Req 1 = .ok (c1Order2, c1State2)) ∧
    c1Order2.status = "CONFIRMED" ∧
    c1Order2.items.map (fun p => p.2.price_per_unit_paid) = [8] :=
  ⟨c1Run1_eq, rfl, rfl, c1Run2_eq, rfl, rfl⟩

/-- Witness for the amended C1: the concrete first buy evicts id-0 from both
partitions. -/
theorem buy_consumes_quote_once_witness :
    dictGet c1State1.quote_store "id-0" = none ∧
    dictGet c1State1.negotiated_quote_store "id-0" = none :=
  (buy_consumes_quote_once testConfig c1State c1Req 1 c1Order1 c1State1 c1Run1_eq
    rfl rfl).1

end CoffeeEmpire
